import Mathlib

/-!
# Formal model of the three-pass J-PAKE implementation

This file is a shallow embedding of `three_pass.go` (together with the
`Config` of the configuration file and the `Curve25519Curve` backend) of the
`jpake` Go package, and proofs about the embedded definitions.

Modelling conventions:

* The protocol works in the prime-order subgroup of edwards25519, a cyclic
  group of order `Nord = 2^252 + 27742317777372353535851937790883648493`
  (the constant `N` of `Curve25519Params`).  We model a curve point by its
  discrete logarithm with respect to the base point, i.e. both points and
  scalars are `ZMod Nord`; point addition (`Point.Add`) is `+`, point
  subtraction (`Point.Subtract`) is `-`, `ScalarMult q s` is `s * q`,
  `ScalarBaseMult s` is `s * genPoint` with `genPoint = 1`, and the identity
  point (`Infinity`) is `0`.  The scalar operations (`Multiply`, `Zero`,
  `SetBigInt` after a reduction mod `N`) are the corresponding `ZMod Nord`
  operations.
* The compressed 32-byte encoding of a point (`Point.Bytes`) is an
  unspecified function `pB : ZMod Nord → List ℕ`, carried as a parameter;
  it is injective on the subgroup in the real backend, which is assumed as
  an explicit hypothesis where (and only where) a proof needs it.
* Byte strings are `List ℕ`.  The hash and MAC primitives live inside
  `Config` as function fields, exactly as in the Go `Config`; the Go
  defaults (SHA-256 / HMAC-SHA-256) are modelled as parameters of
  `NewConfig` and left uninterpreted.
* Randomness: `curve.NewRandomScalar(1)` draws a uniform scalar from
  `[1, Nord-1]`; every such draw is modelled as an explicit argument of the
  operation that performs it (`x1 x2` for the constructor, nonces `v*` for
  the ZKPs).
* Go methods mutate the receiver through a pointer and may return an error
  after a partial mutation; each operation is therefore modelled as a pure
  function returning the post-state together with `Except JpakeError out`.
-/

set_option autoImplicit false

namespace JpakeModel

/-- Order of the prime-order subgroup of edwards25519: the constant `N` of
`Curve25519Params` (hex `1000...14def9dea2f79cd65812631a5cf5d3ed`). -/
def Nord : ℕ := 7237005577332262213973186563042994240857116359379907606001950938285454250989

instance : NeZero Nord := ⟨by decide⟩

/-- A curve point, modelled by its discrete logarithm w.r.t. the base point. -/
abbrev Pt := ZMod Nord

/-- The base point `G` (`NewGeneratorPoint`): discrete logarithm 1. -/
def genPoint : Pt := 1

/-- Big-endian 8-byte encoding of `uint64(n)`
(`binary.BigEndian.AppendUint64`). -/
def beBytes64 (n : ℕ) : List ℕ :=
  let m := n % 2 ^ 64
  [m / 2 ^ 56 % 256, m / 2 ^ 48 % 256, m / 2 ^ 40 % 256, m / 2 ^ 32 % 256,
   m / 2 ^ 24 % 256, m / 2 ^ 16 % 256, m / 2 ^ 8 % 256, m % 256]

/-- The natural number whose big-endian byte representation is `l`
(`big.Int.SetBytes`). -/
def beNat (l : List ℕ) : ℕ := l.foldl (fun a b => a * 256 + b) 0

/-- `concat` of `three_pass.go`: concatenation where every part is preceded
by its length as a big-endian 64-bit integer. -/
def concat : List (List ℕ) → List ℕ
  | [] => []
  | m :: rest => beBytes64 m.length ++ m ++ concat rest

/-- The bytes of the string `"KC_1_U"`. -/
def kc1uBytes : List ℕ := [75, 67, 95, 49, 95, 85]

/-- The bytes of the string `"JPAKE_CONFIRM"`. -/
def jpakeConfirmBytes : List ℕ := [74, 80, 65, 75, 69, 95, 67, 79, 78, 70, 73, 82, 77]

/-- The bytes of the string `"SECRET"`. -/
def secretBytes : List ℕ := [83, 69, 67, 82, 69, 84]

/-- The bytes of the string `"SESSION"`. -/
def sessionBytes : List ℕ := [83, 69, 83, 83, 73, 79, 78]

/-- The Go `Config`: domain-separation labels plus the hash and MAC
primitives, which are function fields exactly as in the source. -/
structure Config where
  sessionConfirmationBytes : List ℕ
  secretGenerationBytes : List ℕ
  sessionGenerationBytes : List ℕ
  hashFn : List ℕ → List ℕ
  macFn : List ℕ → List ℕ → List ℕ

/-- `NewConfig`: the default labels.  The Go defaults for the primitives are
SHA-256 and HMAC-SHA-256; they are modelled as the uninterpreted parameters
`hashFn` and `macFn`. -/
def NewConfig (hashFn : List ℕ → List ℕ) (macFn : List ℕ → List ℕ → List ℕ) : Config :=
  { sessionConfirmationBytes := jpakeConfirmBytes
    secretGenerationBytes := secretBytes
    sessionGenerationBytes := sessionBytes
    hashFn := hashFn
    macFn := macFn }

/-- `Config.generateSecret`: `hashFn(macFn(pw, secretGenerationBytes))`. -/
def Config.generateSecret (c : Config) (pw : List ℕ) : List ℕ :=
  c.hashFn (c.macFn pw c.secretGenerationBytes)

/-- `Config.generateConfirmationMac`:
`macFn(macFn(k, sessionConfirmationBytes), msg)`. -/
def Config.generateConfirmationMac (c : Config) (k msg : List ℕ) : List ℕ :=
  c.macFn (c.macFn k c.sessionConfirmationBytes) msg

/-- `Config.generateSessionKey`: `macFn(k, sessionGenerationBytes)`. -/
def Config.generateSessionKey (c : Config) (k : List ℕ) : List ℕ :=
  c.macFn k c.sessionGenerationBytes

/-- `Curve25519Curve.NewScalarFromSecret l b`: interpret `b` as a big-endian
integer, reduce it modulo `Nord - l` and add the lower bound `l`, so the
result lies in `[l, Nord-1]`. -/
def NewScalarFromSecret (l : ℕ) (b : List ℕ) : ZMod Nord :=
  ((beNat b % (Nord - l) + l : ℕ) : ZMod Nord)

/-- The `ZKPMsg` record.  The canonical sender fills only `T` and `R`; the
struct retains a challenge field `C` (zero-initialised by the sender, and
never read by the verifier). -/
structure ZKPMsg where
  T : Pt
  R : ZMod Nord
  C : ZMod Nord
  deriving DecidableEq

section Ops

-- `pB p` models `p.Bytes()`, the compressed point encoding of the curve
-- backend.
variable (pB : Pt → List ℕ)

/-- The Fiat–Shamir challenge shared by `computeZKP` and `checkZKP`:
`SetBytes(hashFn(concat(generator.Bytes(), T.Bytes(), Y.Bytes(), id))) mod N`. -/
def zkpChallenge (cfg : Config) (generator t y : Pt) (id : List ℕ) : ℕ :=
  beNat (cfg.hashFn (concat [pB generator, pB t, pB y, id])) % Nord

/-- `computeZKP x generator y` of `three_pass.go`, with the random nonce `v`
(drawn there by `NewRandomScalar(1)`) made explicit: `T = v·generator`,
`r = (v - c·x) mod N`.  The `C` field of the struct is left at its zero
value, as in the source. -/
def computeZKP (cfg : Config) (userID : List ℕ) (v x : ZMod Nord) (generator y : Pt) :
    ZKPMsg :=
  let t := v * generator
  let c : ZMod Nord := ((zkpChallenge pB cfg generator t y userID : ℕ) : ZMod Nord)
  { T := t, R := v - c * x, C := 0 }

/-- `checkZKP msgObj generator y` of `three_pass.go`, verifying with the
stored `OtherUserID`: rejects identity `generator`/`y`/`T`, zero `R`, zero
recomputed challenge, and otherwise checks `r·generator + c·y = T`. -/
def checkZKP (cfg : Config) (otherUserID : List ℕ) (msgObj : ZKPMsg) (generator y : Pt) :
    Bool :=
  if generator = 0 then false
  else if y = 0 then false
  else if msgObj.T = 0 then false
  else if msgObj.R = 0 then false
  else
    let c := zkpChallenge pB cfg generator msgObj.T y otherUserID
    if c = 0 then false
    else decide (msgObj.R * generator + ((c : ℕ) : ZMod Nord) * y = msgObj.T)

end Ops

/-- The errors returned by the embedded operations, one constructor per
distinct `errors.New`/`fmt.Errorf` site of the source. -/
inductive JpakeError where
  | stageMismatch (expected was : Int)
  | invalidMessage
  | cannotConfirm
  | x1Zero
  | x2Zero
  | sZero
  | otherX1GInf
  | otherX2GInf
  deriving DecidableEq

/-- The `ThreePassJpake` session struct. -/
structure ThreePassJpake where
  x1G : Pt
  x2G : Pt
  userID : List ℕ
  OtherX1G : Pt
  OtherX2G : Pt
  OtherUserID : List ℕ
  x2s : ZMod Nord
  SessionKey : List ℕ
  X1 : ZMod Nord
  X2 : ZMod Nord
  S : ZMod Nord
  Stage : Int
  config : Config

/-- `ThreePassVariant1`, the pass-1 message. -/
structure ThreePassVariant1 where
  UserID : List ℕ
  X1G : Pt
  X2G : Pt
  X1ZKP : ZKPMsg
  X2ZKP : ZKPMsg
  deriving DecidableEq

/-- `ThreePassVariant2`, the pass-2 message. -/
structure ThreePassVariant2 where
  UserID : List ℕ
  X3G : Pt
  X4G : Pt
  B : Pt
  XsZKP : ZKPMsg
  X3ZKP : ZKPMsg
  X4ZKP : ZKPMsg
  deriving DecidableEq

/-- `ThreePassVariant3`, the pass-3 message. -/
structure ThreePassVariant3 where
  A : Pt
  XsZKP : ZKPMsg
  deriving DecidableEq

/-- `InitThreePassJpakeWithConfigAndCurve`, with the two random private
scalars `x1, x2` (drawn there by `NewRandomScalar(1)`) made explicit:
computes `s` from the password, `x1G = x1·G`, `x2G = x2·G`, `x2s = x2·s`,
and sets the stage to 1 (initiator) or 2 (responder). -/
def InitThreePassJpake (initiator : Bool) (userID pw : List ℕ) (cfg : Config)
    (x1 x2 : ZMod Nord) : ThreePassJpake :=
  let s := NewScalarFromSecret 1 (cfg.generateSecret pw)
  { x1G := x1 * genPoint
    x2G := x2 * genPoint
    userID := userID
    OtherX1G := 0
    OtherX2G := 0
    OtherUserID := []
    x2s := x2 * s
    SessionKey := []
    X1 := x1
    X2 := x2
    S := s
    Stage := if initiator then 1 else 2
    config := cfg }

/-- `RestoreThreePassJpakeWithCurveAndConfig`: rejects zero `x1`/`x2`/`s`
and, when `stage ≥ 4`, identity peer points; otherwise rebuilds the session,
re-deriving `x1G`, `x2G` and `x2s`. -/
def RestoreThreePassJpake (stage : Int) (userID otherUserID sessionKey : List ℕ)
    (x1 x2 s : ZMod Nord) (otherX1G otherX2G : Pt) (cfg : Config) :
    Except JpakeError ThreePassJpake :=
  if x1 = 0 then .error .x1Zero
  else if x2 = 0 then .error .x2Zero
  else if s = 0 then .error .sZero
  else if 4 ≤ stage ∧ otherX1G = 0 then .error .otherX1GInf
  else if 4 ≤ stage ∧ otherX2G = 0 then .error .otherX2GInf
  else .ok
    { x1G := x1 * genPoint
      x2G := x2 * genPoint
      userID := userID
      OtherX1G := otherX1G
      OtherX2G := otherX2G
      OtherUserID := otherUserID
      x2s := x2 * s
      SessionKey := sessionKey
      X1 := x1
      X2 := x2
      S := s
      Stage := stage
      config := cfg }

section Session

variable (pB : Pt → List ℕ)

/-- `computeSharedKey p`: `K = X2·(p - x2s·OtherX2G)`, then
`SessionKey = generateSessionKey(K.Bytes())`. -/
def computeSharedKey (jp : ThreePassJpake) (p : Pt) : ThreePassJpake :=
  let k := jp.X2 * (p - jp.x2s * jp.OtherX2G)
  { jp with SessionKey := jp.config.generateSessionKey (pB k) }

/-- `Pass1Message` (stage 1 → 3), with the two ZKP nonces explicit. -/
def Pass1Message (jp : ThreePassJpake) (v1 v2 : ZMod Nord) :
    ThreePassJpake × Except JpakeError ThreePassVariant1 :=
  if jp.Stage ≠ 1 then (jp, .error (.stageMismatch 1 jp.Stage))
  else
    let x1ZKP := computeZKP pB jp.config jp.userID v1 jp.X1 genPoint jp.x1G
    let x2ZKP := computeZKP pB jp.config jp.userID v2 jp.X2 genPoint jp.x2G
    ({ jp with Stage := 3 },
     .ok { UserID := jp.userID, X1G := jp.x1G, X2G := jp.x2G,
           X1ZKP := x1ZKP, X2ZKP := x2ZKP })

/-- `GetPass2Message` (stage 2 → 4), with the three ZKP nonces explicit.
Note the source stores `OtherUserID` before verifying the received ZKPs, and
stores `OtherX1G`/`OtherX2G` and advances the stage before the composite
generator identity check. -/
def GetPass2Message (jp : ThreePassJpake) (msg : ThreePassVariant1)
    (v3 v4 v5 : ZMod Nord) : ThreePassJpake × Except JpakeError ThreePassVariant2 :=
  if jp.Stage ≠ 2 then (jp, .error (.stageMismatch 2 jp.Stage))
  else if msg.UserID = jp.userID then (jp, .error .invalidMessage)
  else
    let jp1 := { jp with OtherUserID := msg.UserID }
    let x1Proof := checkZKP pB jp1.config jp1.OtherUserID msg.X1ZKP genPoint msg.X1G
    let x2Proof := checkZKP pB jp1.config jp1.OtherUserID msg.X2ZKP genPoint msg.X2G
    if !(x1Proof && x2Proof) then (jp1, .error .invalidMessage)
    else
      let jp2 := { jp1 with OtherX1G := msg.X1G, OtherX2G := msg.X2G, Stage := 4 }
      let x3ZKP := computeZKP pB jp2.config jp2.userID v3 jp2.X1 genPoint jp2.x1G
      let x4ZKP := computeZKP pB jp2.config jp2.userID v4 jp2.X2 genPoint jp2.x2G
      let generator := jp2.x1G + msg.X1G + msg.X2G
      if generator = 0 then (jp2, .error .invalidMessage)
      else
        let b := jp2.x2s * generator
        let xsZKP := computeZKP pB jp2.config jp2.userID v5 jp2.x2s generator b
        (jp2, .ok { UserID := jp2.userID, X3G := jp2.x1G, X4G := jp2.x2G, B := b,
                    XsZKP := xsZKP, X3ZKP := x3ZKP, X4ZKP := x4ZKP })

/-- `GetPass3Message` (stage 3 → 5), with the ZKP nonce explicit.  The
source stores `OtherUserID` before verifying the received ZKPs; on success
it stores the peer points, advances the stage and derives the session key
from `msg.B`. -/
def GetPass3Message (jp : ThreePassJpake) (msg : ThreePassVariant2) (v6 : ZMod Nord) :
    ThreePassJpake × Except JpakeError ThreePassVariant3 :=
  if jp.Stage ≠ 3 then (jp, .error (.stageMismatch 3 jp.Stage))
  else if msg.UserID = jp.userID then (jp, .error .invalidMessage)
  else
    let jp1 := { jp with OtherUserID := msg.UserID }
    let zkpGenerator := jp1.x1G + jp1.x2G + msg.X3G
    let x3Proof := checkZKP pB jp1.config jp1.OtherUserID msg.X3ZKP genPoint msg.X3G
    let x4Proof := checkZKP pB jp1.config jp1.OtherUserID msg.X4ZKP genPoint msg.X4G
    let xsProof := checkZKP pB jp1.config jp1.OtherUserID msg.XsZKP zkpGenerator msg.B
    if !(x3Proof && x4Proof && xsProof) then (jp1, .error .invalidMessage)
    else
      let generator := jp1.x1G + msg.X3G + msg.X4G
      if generator = 0 then (jp1, .error .invalidMessage)
      else
        let a := jp1.x2s * generator
        let xsZKP := computeZKP pB jp1.config jp1.userID v6 jp1.x2s generator a
        let jp2 := { jp1 with OtherX1G := msg.X3G, OtherX2G := msg.X4G, Stage := 5 }
        let jp3 := computeSharedKey pB jp2 msg.B
        (jp3, .ok { A := a, XsZKP := xsZKP })

/-- `ProcessPass3Message` (stage 4 → 6): verifies the `xs` proof against the
stored peer point, derives the session key from `msg.A` and returns the
first confirmation tag. -/
def ProcessPass3Message (jp : ThreePassJpake) (msg : ThreePassVariant3) :
    ThreePassJpake × Except JpakeError (List ℕ) :=
  if jp.Stage ≠ 4 then (jp, .error (.stageMismatch 4 jp.Stage))
  else
    let zkpGenerator := jp.x1G + jp.x2G + jp.OtherX1G
    if !(checkZKP pB jp.config jp.OtherUserID msg.XsZKP zkpGenerator msg.A) then
      (jp, .error .invalidMessage)
    else
      let jp1 := computeSharedKey pB jp msg.A
      let jp2 := { jp1 with Stage := 6 }
      let confirmMsg := concat [kc1uBytes, jp2.userID, jp2.OtherUserID,
        pB jp2.x1G, pB jp2.x2G, pB jp2.OtherX1G, pB jp2.OtherX2G]
      (jp2, .ok (jp2.config.generateConfirmationMac jp2.SessionKey confirmMsg))

/-- `ProcessSessionConfirmation1` (stage 5 → 7): constant-time-compares the
received tag against the expected one and, on success, returns the second
confirmation tag. -/
def ProcessSessionConfirmation1 (jp : ThreePassJpake) (confirm1 : List ℕ) :
    ThreePassJpake × Except JpakeError (List ℕ) :=
  if jp.Stage ≠ 5 then (jp, .error (.stageMismatch 5 jp.Stage))
  else
    let expectedMsg := concat [kc1uBytes, jp.OtherUserID, jp.userID,
      pB jp.OtherX1G, pB jp.OtherX2G, pB jp.x1G, pB jp.x2G]
    if confirm1 ≠ jp.config.generateConfirmationMac jp.SessionKey expectedMsg then
      (jp, .error .cannotConfirm)
    else
      let jp1 := { jp with Stage := 7 }
      let msg := concat [kc1uBytes, jp1.userID, jp1.OtherUserID,
        pB jp1.x1G, pB jp1.x2G, pB jp1.OtherX1G, pB jp1.OtherX2G]
      (jp1, .ok (jp1.config.generateConfirmationMac jp1.SessionKey msg))

/-- `ProcessSessionConfirmation2` (stage 6 → 8): constant-time-compares the
received tag against the expected one. -/
def ProcessSessionConfirmation2 (jp : ThreePassJpake) (confirm2 : List ℕ) :
    ThreePassJpake × Except JpakeError Unit :=
  if jp.Stage ≠ 6 then (jp, .error (.stageMismatch 6 jp.Stage))
  else
    let expectedMsg := concat [kc1uBytes, jp.OtherUserID, jp.userID,
      pB jp.OtherX1G, pB jp.OtherX2G, pB jp.x1G, pB jp.x2G]
    if confirm2 ≠ jp.config.generateConfirmationMac jp.SessionKey expectedMsg then
      (jp, .error .cannotConfirm)
    else ({ jp with Stage := 8 }, .ok ())

end Session

/-- The payload returned by a successful protocol operation. -/
inductive OpOutput where
  | msg1 (m : ThreePassVariant1)
  | msg2 (m : ThreePassVariant2)
  | msg3 (m : ThreePassVariant3)
  | tag (t : List ℕ)
  | done

/-- One invocation of an exposed protocol operation, together with the
message/tag it is given and the nonces the operation draws internally. -/
inductive AnyOp where
  | pass1 (v1 v2 : ZMod Nord)
  | pass2 (msg : ThreePassVariant1) (v3 v4 v5 : ZMod Nord)
  | pass3 (msg : ThreePassVariant2) (v6 : ZMod Nord)
  | processPass3 (msg : ThreePassVariant3)
  | confirm1 (c : List ℕ)
  | confirm2 (c : List ℕ)

/-- The stage at which an operation is enabled. -/
def opStage : AnyOp → Int
  | .pass1 _ _ => 1
  | .pass2 _ _ _ _ => 2
  | .pass3 _ _ => 3
  | .processPass3 _ => 4
  | .confirm1 _ => 5
  | .confirm2 _ => 6

section Step

variable (pB : Pt → List ℕ)

/-- Dispatch one exposed operation on a session. -/
def step (op : AnyOp) (jp : ThreePassJpake) :
    ThreePassJpake × Except JpakeError OpOutput :=
  match op with
  | .pass1 v1 v2 =>
      let r := Pass1Message pB jp v1 v2
      (r.1, r.2.map OpOutput.msg1)
  | .pass2 msg v3 v4 v5 =>
      let r := GetPass2Message pB jp msg v3 v4 v5
      (r.1, r.2.map OpOutput.msg2)
  | .pass3 msg v6 =>
      let r := GetPass3Message pB jp msg v6
      (r.1, r.2.map OpOutput.msg3)
  | .processPass3 msg =>
      let r := ProcessPass3Message pB jp msg
      (r.1, r.2.map OpOutput.tag)
  | .confirm1 c =>
      let r := ProcessSessionConfirmation1 pB jp c
      (r.1, r.2.map OpOutput.tag)
  | .confirm2 c =>
      let r := ProcessSessionConfirmation2 pB jp c
      (r.1, r.2.map fun _ => OpOutput.done)

/-- Run a sequence of operations, threading the session state. -/
def runOps (ops : List AnyOp) (jp : ThreePassJpake) : ThreePassJpake :=
  ops.foldl (fun st op => (step pB op st).1) jp

/-- The honest three-pass run of the spec: construct an initiator `A` and a
responder `B`, then `Pass1` at `A`, `Pass2` at `B`, `Pass3` at `A`,
`ProcessPass3` at `B`, wiring each output to the next operation.  Returns
`none` if any operation returns an error, and otherwise the two session
states after `ProcessPass3` together with the first confirmation tag. -/
def honestRun (cfg : Config) (uidA uidB pwA pwB : List ℕ)
    (x1 x2 x3 x4 v1 v2 v3 v4 v5 v6 : ZMod Nord) :
    Option (ThreePassJpake × ThreePassJpake × List ℕ) :=
  let a0 := InitThreePassJpake true uidA pwA cfg x1 x2
  let b0 := InitThreePassJpake false uidB pwB cfg x3 x4
  match Pass1Message pB a0 v1 v2 with
  | (_, .error _) => none
  | (a1, .ok m1) =>
    match GetPass2Message pB b0 m1 v3 v4 v5 with
    | (_, .error _) => none
    | (b1, .ok m2) =>
      match GetPass3Message pB a1 m2 v6 with
      | (_, .error _) => none
      | (a2, .ok m3) =>
        match ProcessPass3Message pB b1 m3 with
        | (_, .error _) => none
        | (b2, .ok c1) => some (a2, b2, c1)

end Step

/-! ## Success characterizations of the pass operations -/

section Char

variable {pB : Pt → List ℕ}

theorem Pass1Message_ok {jp : ThreePassJpake} {v1 v2 : ZMod Nord}
    {jp' : ThreePassJpake} {m : ThreePassVariant1}
    (h : Pass1Message pB jp v1 v2 = (jp', .ok m)) :
    jp.Stage = 1 ∧ jp' = { jp with Stage := 3 } ∧
      m = { UserID := jp.userID, X1G := jp.x1G, X2G := jp.x2G,
            X1ZKP := computeZKP pB jp.config jp.userID v1 jp.X1 genPoint jp.x1G,
            X2ZKP := computeZKP pB jp.config jp.userID v2 jp.X2 genPoint jp.x2G } := by
  unfold Pass1Message at h
  split at h
  · exact absurd (congrArg Prod.snd h) (by simp)
  rename_i hst
  dsimp only at h
  injection h with h1 h2
  injection h2 with h3
  exact ⟨by omega, h1.symm, h3.symm⟩

theorem GetPass2Message_ok {jp : ThreePassJpake} {msg : ThreePassVariant1}
    {v3 v4 v5 : ZMod Nord} {jp' : ThreePassJpake} {m : ThreePassVariant2}
    (h : GetPass2Message pB jp msg v3 v4 v5 = (jp', .ok m)) :
    jp.Stage = 2 ∧ msg.UserID ≠ jp.userID ∧
      jp.x1G + msg.X1G + msg.X2G ≠ 0 ∧
      jp' = { jp with
              OtherUserID := msg.UserID
              OtherX1G := msg.X1G
              OtherX2G := msg.X2G
              Stage := 4 } ∧
      m = { UserID := jp.userID, X3G := jp.x1G, X4G := jp.x2G,
            B := jp.x2s * (jp.x1G + msg.X1G + msg.X2G),
            XsZKP := computeZKP pB jp.config jp.userID v5 jp.x2s
              (jp.x1G + msg.X1G + msg.X2G)
              (jp.x2s * (jp.x1G + msg.X1G + msg.X2G)),
            X3ZKP := computeZKP pB jp.config jp.userID v3 jp.X1 genPoint jp.x1G,
            X4ZKP := computeZKP pB jp.config jp.userID v4 jp.X2 genPoint jp.x2G } := by
  unfold GetPass2Message at h
  split at h
  · exact absurd (congrArg Prod.snd h) (by simp)
  rename_i hst
  split at h
  · exact absurd (congrArg Prod.snd h) (by simp)
  rename_i huid
  dsimp only at h
  split at h
  · exact absurd (congrArg Prod.snd h) (by simp)
  rename_i hzkp
  split at h
  · exact absurd (congrArg Prod.snd h) (by simp)
  rename_i hgen
  injection h with h1 h2
  injection h2 with h3
  exact ⟨by omega, huid, hgen, h1.symm, h3.symm⟩

theorem GetPass3Message_ok {jp : ThreePassJpake} {msg : ThreePassVariant2}
    {v6 : ZMod Nord} {jp' : ThreePassJpake} {m : ThreePassVariant3}
    (h : GetPass3Message pB jp msg v6 = (jp', .ok m)) :
    jp.Stage = 3 ∧ msg.UserID ≠ jp.userID ∧
      jp.x1G + msg.X3G + msg.X4G ≠ 0 ∧
      jp' = { jp with
              OtherUserID := msg.UserID
              OtherX1G := msg.X3G
              OtherX2G := msg.X4G
              Stage := 5
              SessionKey := jp.config.generateSessionKey
                (pB (jp.X2 * (msg.B - jp.x2s * msg.X4G))) } ∧
      m = { A := jp.x2s * (jp.x1G + msg.X3G + msg.X4G),
            XsZKP := computeZKP pB jp.config jp.userID v6 jp.x2s
              (jp.x1G + msg.X3G + msg.X4G)
              (jp.x2s * (jp.x1G + msg.X3G + msg.X4G)) } := by
  unfold GetPass3Message at h
  split at h
  · exact absurd (congrArg Prod.snd h) (by simp)
  rename_i hst
  split at h
  · exact absurd (congrArg Prod.snd h) (by simp)
  rename_i huid
  dsimp only at h
  split at h
  · exact absurd (congrArg Prod.snd h) (by simp)
  rename_i hzkp
  split at h
  · exact absurd (congrArg Prod.snd h) (by simp)
  rename_i hgen
  unfold computeSharedKey at h
  dsimp only at h
  injection h with h1 h2
  injection h2 with h3
  exact ⟨by omega, huid, hgen, h1.symm, h3.symm⟩

theorem ProcessPass3Message_ok {jp : ThreePassJpake} {msg : ThreePassVariant3}
    {jp' : ThreePassJpake} {t : List ℕ}
    (h : ProcessPass3Message pB jp msg = (jp', .ok t)) :
    jp.Stage = 4 ∧
      jp' = { jp with
              Stage := 6
              SessionKey := jp.config.generateSessionKey
                (pB (jp.X2 * (msg.A - jp.x2s * jp.OtherX2G))) } ∧
      t = jp.config.generateConfirmationMac
            (jp.config.generateSessionKey (pB (jp.X2 * (msg.A - jp.x2s * jp.OtherX2G))))
            (concat [kc1uBytes, jp.userID, jp.OtherUserID,
                     pB jp.x1G, pB jp.x2G, pB jp.OtherX1G, pB jp.OtherX2G]) := by
  unfold ProcessPass3Message at h
  split at h
  · exact absurd (congrArg Prod.snd h) (by simp)
  rename_i hst
  dsimp only at h
  split at h
  · exact absurd (congrArg Prod.snd h) (by simp)
  rename_i hzkp
  unfold computeSharedKey at h
  dsimp only at h
  injection h with h1 h2
  injection h2 with h3
  exact ⟨by omega, h1.symm, h3.symm⟩

end Char

/-- Whether an operation result is a success. -/
def resultOk {α : Type} : Except JpakeError α → Bool
  | .ok _ => true
  | .error _ => false

/-- The error carried by a failed operation result, if any. -/
def errOf {α : Type} : Except JpakeError α → Option JpakeError
  | .ok _ => none
  | .error e => some e

/-! ## Stage discipline helpers -/

section StageHelpers

variable {pB : Pt → List ℕ}

theorem step_wrong_stage (op : AnyOp) (jp : ThreePassJpake)
    (h : jp.Stage ≠ opStage op) :
    step pB op jp = (jp, .error (.stageMismatch (opStage op) jp.Stage)) := by
  cases op <;>
    simp_all [step, opStage, Pass1Message, GetPass2Message, GetPass3Message,
      ProcessPass3Message, ProcessSessionConfirmation1, ProcessSessionConfirmation2,
      Except.map]

theorem step_ok_transition (op : AnyOp) (jp : ThreePassJpake)
    (h : resultOk (step pB op jp).2 = true) :
    jp.Stage = opStage op ∧ (step pB op jp).1.Stage = jp.Stage + 2 := by
  by_cases hst : jp.Stage = opStage op
  case neg =>
    rw [step_wrong_stage op jp hst] at h
    exact absurd h (by simp [resultOk])
  case pos =>
    refine ⟨hst, ?_⟩
    cases op <;>
      [skip; skip; skip; skip; skip; skip] <;>
      · simp only [opStage] at hst
        unfold step Pass1Message GetPass2Message GetPass3Message ProcessPass3Message
          ProcessSessionConfirmation1 ProcessSessionConfirmation2 at h ⊢
        dsimp only at h ⊢
        split_ifs at h ⊢ <;>
          simp_all [resultOk, Except.map, computeSharedKey]

theorem step_stage_mono (op : AnyOp) (jp : ThreePassJpake) :
    jp.Stage ≤ (step pB op jp).1.Stage := by
  by_cases hst : jp.Stage = opStage op
  case neg => rw [step_wrong_stage op jp hst]
  case pos =>
    cases op <;>
      · simp only [opStage] at hst
        unfold step Pass1Message GetPass2Message GetPass3Message ProcessPass3Message
          ProcessSessionConfirmation1 ProcessSessionConfirmation2
        dsimp only
        split_ifs <;> simp_all [computeSharedKey]

theorem runOps_stage_mono (ops : List AnyOp) (jp : ThreePassJpake) :
    jp.Stage ≤ (runOps pB ops jp).Stage := by
  induction ops generalizing jp with
  | nil => exact le_refl _
  | cons op rest ih =>
    exact le_trans (step_stage_mono op jp) (ih ((step pB op jp).1))

theorem step_error_shape (op : AnyOp) (jp jp' : ThreePassJpake) (e : JpakeError)
    (h : step pB op jp = (jp', .error e)) :
    jp'.SessionKey = jp.SessionKey ∧
      (jp' = jp ∨
       jp' = { jp with OtherUserID := jp'.OtherUserID } ∨
       jp' = { jp with
               OtherUserID := jp'.OtherUserID
               OtherX1G := jp'.OtherX1G
               OtherX2G := jp'.OtherX2G
               Stage := 4 }) := by
  cases op <;>
    · unfold step Pass1Message GetPass2Message GetPass3Message ProcessPass3Message
        ProcessSessionConfirmation1 ProcessSessionConfirmation2 at h
      dsimp only at h
      split_ifs at h <;>
        first
          | exact Except.noConfusion (congrArg Prod.snd h)
          | (have h1 : _ = jp' := congrArg Prod.fst h
             subst h1
             exact ⟨rfl, Or.inl rfl⟩)
          | (have h1 : _ = jp' := congrArg Prod.fst h
             subst h1
             exact ⟨rfl, Or.inr (Or.inl rfl)⟩)
          | (have h1 : _ = jp' := congrArg Prod.fst h
             subst h1
             exact ⟨rfl, Or.inr (Or.inr rfl)⟩)

end StageHelpers

/-! ## Concrete fixtures used by counterexamples and witnesses -/

/-- A concrete point encoding: the canonical representative of the discrete
logarithm (injective, like the real compressed encoding). -/
def pB0 : Pt → List ℕ := fun p => [p.val]

/-- A concrete hash primitive that constantly returns `[1]`. -/
def hash1 : List ℕ → List ℕ := fun _ => [1]

/-- The identity function as a concrete hash primitive. -/
def hashId : List ℕ → List ℕ := fun l => l

/-- A concrete MAC primitive: concatenate key and message. -/
def macAppend : List ℕ → List ℕ → List ℕ := fun k m => k ++ m

/-- Default-label config over the constant hash. -/
def cfg0 : Config := NewConfig hash1 macAppend

/-- Default-label config over the identity hash. -/
def cfgId : Config := NewConfig hashId macAppend

/-- A freshly initialised initiator session used in witnesses. -/
def jpInit1 : ThreePassJpake := InitThreePassJpake true [1] [7] cfg0 1 2

/-- A freshly initialised responder session with `x1 = x2 = 1`. -/
def jpC2 : ThreePassJpake := InitThreePassJpake false [2] [7] cfg0 1 1

/-- A pass-1 message carrying valid ZKPs (under `cfg0`, whose challenge is
constantly 1) for `X1G = 1·G` and `X2G = (-2)·G`, so that the composite
generator `x1G + X1G + X2G = 1 + 1 - 2` degenerates to the identity. -/
def msgC2 : ThreePassVariant1 :=
  { UserID := [1], X1G := 1, X2G := -2,
    X1ZKP := { T := 2, R := 1, C := 0 },
    X2ZKP := { T := 2, R := 4, C := 0 } }

/-! ## Claim C7: stage discipline -/

/-- **C7**: every operation invoked at a stage different from its enabled
stage returns a stage-mismatch error (and leaves the session unchanged);
a successful operation moves the stage from its enabled stage by +2
(1→3, 2→4, 3→5, 4→6, 5→7, 6→8); every invocation leaves the stage
non-decreasing, and so does every sequence of operations. -/
theorem C7_stage_discipline :
    ∀ (pB : Pt → List ℕ) (op : AnyOp) (jp : ThreePassJpake),
      (jp.Stage ≠ opStage op →
        step pB op jp = (jp, .error (.stageMismatch (opStage op) jp.Stage))) ∧
      (resultOk (step pB op jp).2 = true →
        jp.Stage = opStage op ∧ (step pB op jp).1.Stage = jp.Stage + 2) ∧
      jp.Stage ≤ (step pB op jp).1.Stage ∧
      ∀ ops : List AnyOp, jp.Stage ≤ (runOps pB ops jp).Stage :=
  fun _ op jp =>
    ⟨step_wrong_stage op jp, step_ok_transition op jp, step_stage_mono op jp,
     fun ops => runOps_stage_mono ops jp⟩

/-- Witness for C7: a stage-1 session refuses `ProcessSessionConfirmation2`
with a stage-mismatch error, and a successful `Pass1Message` moves the stage
from 1 to 3. -/
theorem C7_stage_discipline_witness :
    step pB0 (AnyOp.confirm2 []) jpInit1 =
        (jpInit1, .error (.stageMismatch 6 1)) ∧
      jpInit1.Stage = 1 ∧ (step pB0 (AnyOp.pass1 1 1) jpInit1).1.Stage = 1 + 2 := by
  refine ⟨(C7_stage_discipline pB0 (AnyOp.confirm2 []) jpInit1).1 (by decide), ?_⟩
  have h := (C7_stage_discipline pB0 (AnyOp.pass1 1 1) jpInit1).2.1 (by decide)
  exact ⟨h.1, by rw [h.2]; decide⟩

/-! ## Claim C2: atomicity of the operations -/

/-- **C2** is false on the code: counterexample.  `GetPass2Message` on a
stage-2 session, given a message with valid ZKPs whose points degenerate the
composite generator, returns an error, yet the session has already recorded
`OtherUserID`, `OtherX1G`, `OtherX2G` and advanced `Stage` from 2 to 4. -/
theorem C2_atomicity_counterexample :
    errOf (GetPass2Message pB0 jpC2 msgC2 1 1 1).2 = some .invalidMessage ∧
      jpC2.Stage = 2 ∧
      (GetPass2Message pB0 jpC2 msgC2 1 1 1).1.Stage = 4 ∧
      jpC2.OtherUserID = [] ∧
      (GetPass2Message pB0 jpC2 msgC2 1 1 1).1.OtherUserID = [1] ∧
      jpC2.OtherX2G = 0 ∧
      (GetPass2Message pB0 jpC2 msgC2 1 1 1).1.OtherX2G = -2 := by
  decide

/-- **C2** (amended): on error the session key is never written and the
session is unchanged, except that `GetPass2Message`/`GetPass3Message` may
have recorded `OtherUserID` before a ZKP-validation failure, and
`GetPass2Message` may additionally have recorded `OtherX1G`/`OtherX2G` and
advanced `Stage` to 4 before its composite-generator identity check. -/
theorem C2_atomicity_amended :
    ∀ (pB : Pt → List ℕ) (op : AnyOp) (jp jp' : ThreePassJpake) (e : JpakeError),
      step pB op jp = (jp', .error e) →
      jp'.SessionKey = jp.SessionKey ∧
        (jp' = jp ∨
         jp' = { jp with OtherUserID := jp'.OtherUserID } ∨
         jp' = { jp with
                 OtherUserID := jp'.OtherUserID
                 OtherX1G := jp'.OtherX1G
                 OtherX2G := jp'.OtherX2G
                 Stage := 4 }) :=
  fun _ op jp jp' e h => step_error_shape op jp jp' e h

/-- Witness for the amended C2, at the concrete counterexample invocation:
the partially-advanced error state still carries the old session key. -/
theorem C2_atomicity_amended_witness :
    ({ jpC2 with
       OtherUserID := [1]
       OtherX1G := 1
       OtherX2G := -2
       Stage := 4 } : ThreePassJpake).SessionKey = jpC2.SessionKey :=
  (C2_atomicity_amended pB0 (AnyOp.pass2 msgC2 1 1 1) jpC2
    { jpC2 with
      OtherUserID := [1]
      OtherX1G := 1
      OtherX2G := -2
      Stage := 4 }
    JpakeError.invalidMessage (by rfl)).1

/-! ## Claim C8: rejection of degenerate ZKP inputs -/

/-- **C8**: `checkZKP` returns `false` whenever the generator, the public
point or the proof point `T` is the identity, the response `R` is the zero
scalar, or the recomputed challenge reduces to zero mod `N`. -/
theorem C8_degenerate_reject :
    ∀ (pB : Pt → List ℕ) (cfg : Config) (ouid : List ℕ) (msgObj : ZKPMsg)
      (generator y : Pt),
      (generator = 0 ∨ y = 0 ∨ msgObj.T = 0 ∨ msgObj.R = 0 ∨
        zkpChallenge pB cfg generator msgObj.T y ouid = 0) →
      checkZKP pB cfg ouid msgObj generator y = false := by
  intro pB cfg ouid msgObj generator y h
  unfold checkZKP
  dsimp only
  split_ifs with h1 h2 h3 h4 h5 <;> try rfl
  rcases h with h | h | h | h | h
  · exact absurd h h1
  · exact absurd h h2
  · exact absurd h h3
  · exact absurd h h4
  · exact absurd h h5

/-- Witness for C8: a proof whose `T` is the identity point is rejected. -/
theorem C8_degenerate_reject_witness :
    checkZKP pB0 cfg0 [1] { T := 0, R := 1, C := 0 } 1 1 = false :=
  C8_degenerate_reject pB0 cfg0 [1] { T := 0, R := 1, C := 0 } 1 1
    (Or.inr (Or.inr (Or.inl rfl)))

/-! ## Claim C10: restore-constructor validation -/

/-- **C10**: the restore constructor returns an error if and only if `x1`,
`x2` or `s` is the zero scalar, or the stage is at least 4 and a supplied
peer point is the identity; every other stage value (0, negative, &gt; 8, …)
yields a successfully constructed session. -/
theorem C10_restore_validation :
    ∀ (stage : Int) (uid ouid sk : List ℕ) (x1 x2 s : ZMod Nord) (p1 p2 : Pt)
      (cfg : Config),
      (RestoreThreePassJpake stage uid ouid sk x1 x2 s p1 p2 cfg).toOption = none ↔
        (x1 = 0 ∨ x2 = 0 ∨ s = 0 ∨ (4 ≤ stage ∧ (p1 = 0 ∨ p2 = 0))) := by
  intro stage uid ouid sk x1 x2 s p1 p2 cfg
  unfold RestoreThreePassJpake
  split_ifs with h1 h2 h3 h4 h5 <;> simp [Except.toOption] <;> tauto

/-! ## Claim C5: the Fiat–Shamir challenge -/

/-- Modelled from the spec (§4.2): the challenge written out field by field,
`H(L(G.bytes) ‖ G.bytes ‖ L(T.bytes) ‖ T.bytes ‖ L(Y.bytes) ‖ Y.bytes ‖
L(id) ‖ id) mod N` with `L` the big-endian 64-bit length prefix. -/
def specChallenge (pB : Pt → List ℕ) (cfg : Config) (generator t y : Pt)
    (id : List ℕ) : ℕ :=
  beNat (cfg.hashFn
    (beBytes64 (pB generator).length ++ pB generator ++
     beBytes64 (pB t).length ++ pB t ++
     beBytes64 (pB y).length ++ pB y ++
     beBytes64 id.length ++ id)) % Nord

/-- **C5**: the challenge computed through `concat` equals the spec formula
with per-field big-endian 64-bit length prefixes; the prover uses it with
its own `userID` to build `{T, r}`; and the verifier recomputes it, so its
decision does not depend on the challenge field `C` carried inside the
received message. -/
theorem C5_challenge_transcript :
    ∀ (pB : Pt → List ℕ) (cfg : Config) (generator t y : Pt) (id : List ℕ)
      (v x : ZMod Nord) (msgObj : ZKPMsg) (c0 : ZMod Nord),
      zkpChallenge pB cfg generator t y id = specChallenge pB cfg generator t y id ∧
      computeZKP pB cfg id v x generator y =
        { T := v * generator,
          R := v - ((zkpChallenge pB cfg generator (v * generator) y id : ℕ) :
            ZMod Nord) * x,
          C := 0 } ∧
      checkZKP pB cfg id { msgObj with C := c0 } generator y =
        checkZKP pB cfg id msgObj generator y := by
  intro pB cfg generator t y id v x msgObj c0
  refine ⟨?_, rfl, rfl⟩
  simp [zkpChallenge, specChallenge, concat, List.append_assoc]

/-! ## Claim C6: secret derivation -/

/-- **C6**: the scalar `s` stored by the constructor equals
`(HASH(MAC(password, "SECRET")) mod (N-1)) + 1`, and therefore always lies
in `[1, N-1]` and is never zero. -/
theorem C6_secret_derivation :
    ∀ (hashFn : List ℕ → List ℕ) (macFn : List ℕ → List ℕ → List ℕ)
      (initiator : Bool) (uid pw : List ℕ) (x1 x2 : ZMod Nord),
      (InitThreePassJpake initiator uid pw (NewConfig hashFn macFn) x1 x2).S =
          ((beNat (hashFn (macFn pw secretBytes)) % (Nord - 1) + 1 : ℕ) : ZMod Nord) ∧
        1 ≤ (InitThreePassJpake initiator uid pw (NewConfig hashFn macFn) x1 x2).S.val ∧
        (InitThreePassJpake initiator uid pw (NewConfig hashFn macFn) x1 x2).S.val ≤
          Nord - 1 ∧
        (InitThreePassJpake initiator uid pw (NewConfig hashFn macFn) x1 x2).S ≠ 0 := by
  intro hashFn macFn initiator uid pw x1 x2
  have hmod : beNat (hashFn (macFn pw secretBytes)) % (Nord - 1) < Nord - 1 :=
    Nat.mod_lt _ (by decide)
  have hlt : beNat (hashFn (macFn pw secretBytes)) % (Nord - 1) + 1 < Nord := by omega
  have hS : (InitThreePassJpake initiator uid pw (NewConfig hashFn macFn) x1 x2).S =
      ((beNat (hashFn (macFn pw secretBytes)) % (Nord - 1) + 1 : ℕ) : ZMod Nord) := rfl
  have hval : (InitThreePassJpake initiator uid pw (NewConfig hashFn macFn) x1 x2).S.val =
      beNat (hashFn (macFn pw secretBytes)) % (Nord - 1) + 1 := by
    rw [hS, ZMod.val_cast_of_lt hlt]
  refine ⟨hS, by omega, by omega, fun h0 => ?_⟩
  rw [h0, ZMod.val_zero] at hval
  omega

/-! ## Claim C3: ZKP round trip -/

/-- **C3** is false as stated: counterexample.  For the valid statement
`x = 3 ≠ 0`, non-identity generator `G`, `Y = 3·G`, and the admissible
nonce `v = 3`, the honestly computed proof has response `r = v - c·x = 0`
(the challenge under `cfg0` being 1), so `checkZKP` rejects it. -/
theorem C3_roundtrip_counterexample :
    (3 : ZMod Nord) ≠ 0 ∧ genPoint ≠ 0 ∧ (3 : ZMod Nord) ≠ 0 ∧
      checkZKP pB0 cfg0 [7] (computeZKP pB0 cfg0 [7] 3 3 genPoint (3 * genPoint))
        genPoint (3 * genPoint) = false := by
  decide

/-- **C3** (amended): the honestly computed proof verifies provided the
recomputed challenge is nonzero mod `N` and the honest response
`r = v - c·x` is nonzero mod `N`.  (The claim's premises that `Y = x·G` and
`T = v·G` are not the identity appear as the conditions `x·G ≠ 0`,
`v·G ≠ 0`.) -/
theorem C3_roundtrip_amended :
    ∀ (pB : Pt → List ℕ) (cfg : Config) (id : List ℕ) (x generator v : ZMod Nord),
      x * generator ≠ 0 → v * generator ≠ 0 →
      zkpChallenge pB cfg generator (v * generator) (x * generator) id ≠ 0 →
      v - ((zkpChallenge pB cfg generator (v * generator) (x * generator) id : ℕ) :
        ZMod Nord) * x ≠ 0 →
      checkZKP pB cfg id (computeZKP pB cfg id v x generator (x * generator))
        generator (x * generator) = true := by
  intro pB cfg id x generator v hy ht hc hr
  have hgen : generator ≠ 0 := fun h => hy (by rw [h, mul_zero])
  unfold computeZKP checkZKP
  dsimp only
  rw [if_neg hgen, if_neg hy, if_neg ht, if_neg hr, if_neg hc, decide_eq_true_eq]
  ring

/-- Witness for the amended C3 at concrete inputs (`x = 2`, `v = 5`,
challenge 1, response 3). -/
theorem C3_roundtrip_amended_witness :
    checkZKP pB0 cfg0 [7] (computeZKP pB0 cfg0 [7] 5 2 1 (2 * 1)) 1 (2 * 1) = true :=
  C3_roundtrip_amended pB0 cfg0 [7] 2 1 5 (by decide) (by decide) (by decide) (by decide)

/-! ## Honest-run fixtures -/

/-- A dummy session used only as an `Option.getD` default. -/
def dummySession : ThreePassJpake := InitThreePassJpake true [0] [0] cfg0 1 1

/-- A completing honest run over `cfg0` with equal passwords. -/
def runFix : Option (ThreePassJpake × ThreePassJpake × List ℕ) :=
  honestRun pB0 cfg0 [1] [2] [7] [7] 1 2 3 4 2 5 7 9 11 13

/-- The initiator state after `GetPass3Message` in `runFix` (stage 5). -/
def a2Fix : ThreePassJpake := (runFix.getD (dummySession, dummySession, [])).1

/-- The responder state after `ProcessPass3Message` in `runFix` (stage 6). -/
def b2Fix : ThreePassJpake := (runFix.getD (dummySession, dummySession, [])).2.1

/-- The first confirmation tag produced in `runFix`. -/
def c1Fix : List ℕ := (runFix.getD (dummySession, dummySession, [])).2.2

/-! ## Claim C9: behaviour after a confirmation mismatch -/

/-- **C9** is false as stated: counterexample.  After a confirmation-tag
mismatch at stage 5 the session key is kept and the stage is unchanged, but
a subsequent invocation of the same operation with the matching tag still
advances the stage to 7 — further stage transitions are not blocked. -/
theorem C9_confirm_mismatch_counterexample :
    errOf (ProcessSessionConfirmation1 pB0 a2Fix [0]).2 = some .cannotConfirm ∧
      (ProcessSessionConfirmation1 pB0 a2Fix [0]).1.SessionKey = a2Fix.SessionKey ∧
      a2Fix.SessionKey ≠ [] ∧
      (ProcessSessionConfirmation1 pB0 a2Fix [0]).1.Stage = 5 ∧
      (ProcessSessionConfirmation1 pB0
          (ProcessSessionConfirmation1 pB0 a2Fix [0]).1 c1Fix).1.Stage = 7 := by
  decide

/-- **C9** (amended): a failed `ProcessSessionConfirmation1`/`2` leaves the
session — in particular `SessionKey` and `Stage` — completely unchanged;
stage transitions, however, are not blocked: retrying the enabled
confirmation at stage 5 with the matching tag succeeds and advances the
stage to 7. -/
theorem C9_confirm_mismatch_amended :
    ∀ (pB : Pt → List ℕ) (jp : ThreePassJpake) (c1 c2 : List ℕ),
      (resultOk (ProcessSessionConfirmation1 pB jp c1).2 = false →
        (ProcessSessionConfirmation1 pB jp c1).1 = jp) ∧
      (resultOk (ProcessSessionConfirmation2 pB jp c2).2 = false →
        (ProcessSessionConfirmation2 pB jp c2).1 = jp) ∧
      (jp.Stage = 5 →
        c1 = jp.config.generateConfirmationMac jp.SessionKey
          (concat [kc1uBytes, jp.OtherUserID, jp.userID, pB jp.OtherX1G,
            pB jp.OtherX2G, pB jp.x1G, pB jp.x2G]) →
        (ProcessSessionConfirmation1 pB jp c1).1.Stage = 7 ∧
          resultOk (ProcessSessionConfirmation1 pB jp c1).2 = true) := by
  intro pB jp c1 c2
  refine ⟨?_, ?_, ?_⟩
  · intro h
    unfold ProcessSessionConfirmation1 at h ⊢
    dsimp only at h ⊢
    split_ifs at h ⊢ <;> simp_all [resultOk]
  · intro h
    unfold ProcessSessionConfirmation2 at h ⊢
    dsimp only at h ⊢
    split_ifs at h ⊢ <;> simp_all [resultOk]
  · intro h5 hc
    unfold ProcessSessionConfirmation1
    dsimp only
    rw [if_neg (show ¬jp.Stage ≠ 5 by omega), if_neg (show ¬c1 ≠ _ from fun hne => hne hc)]
    exact ⟨rfl, rfl⟩

/-- Witness for the amended C9 at the `runFix` initiator state. -/
theorem C9_confirm_mismatch_amended_witness :
    (ProcessSessionConfirmation1 pB0 a2Fix [0]).1 = a2Fix ∧
      (ProcessSessionConfirmation1 pB0 a2Fix c1Fix).1.Stage = 7 := by
  refine ⟨(C9_confirm_mismatch_amended pB0 a2Fix [0] []).1 (by decide), ?_⟩
  exact ((C9_confirm_mismatch_amended pB0 a2Fix c1Fix []).2.2 (by decide) (by decide)).1

/-! ## Claim C1: honest-run correctness -/

/-- **C1** is false as stated: counterexample.  Two sessions with distinct
userIDs and the same password and config, whose legitimately drawn private
scalars satisfy `x1 + x2 + x3 = 0 mod N`: `GetPass2Message` rejects the
degenerate composite generator, so the honest run does not complete. -/
theorem C1_honest_run_counterexample :
    ([1] : List ℕ) ≠ [2] ∧ (1 : ZMod Nord) ≠ 0 ∧ (-2 : ZMod Nord) ≠ 0 ∧
      (honestRun pB0 cfg0 [1] [2] [7] [7] 1 1 (-2) 1 2 3 2 2 2 2).isNone = true := by
  decide

/-- **C1** (amended): whenever the honest run `Pass1` at `A`, `Pass2` at
`B`, `Pass3` at `A`, `ProcessPass3` at `B` between two sessions constructed
with the same password and config completes with no operation returning an
error, `A.SessionKey` equals `B.SessionKey` byte for byte, and the two
confirmation operations both succeed, moving `A` to stage 7 and `B` to
stage 8.  (The unamended claim additionally asserted that the run always
completes; degenerate scalar draws or hash outcomes refute that.) -/
theorem C1_honest_run_amended :
    ∀ (pB : Pt → List ℕ) (cfg : Config) (uidA uidB pw : List ℕ)
      (x1 x2 x3 x4 v1 v2 v3 v4 v5 v6 : ZMod Nord)
      (a2 b2 : ThreePassJpake) (c1 : List ℕ),
      honestRun pB cfg uidA uidB pw pw x1 x2 x3 x4 v1 v2 v3 v4 v5 v6 =
          some (a2, b2, c1) →
      a2.SessionKey = b2.SessionKey ∧
        ∃ c2, ProcessSessionConfirmation1 pB a2 c1 = ({ a2 with Stage := 7 }, .ok c2) ∧
          ProcessSessionConfirmation2 pB b2 c2 = ({ b2 with Stage := 8 }, .ok ()) := by
  intro pB cfg uidA uidB pw x1 x2 x3 x4 v1 v2 v3 v4 v5 v6 a2 b2 c1 h
  unfold honestRun at h
  dsimp only at h
  rcases h1 : Pass1Message pB (InitThreePassJpake true uidA pw cfg x1 x2) v1 v2
    with ⟨a1, r1⟩
  rw [h1] at h
  cases r1 with
  | error e => simp at h
  | ok m1 =>
  dsimp only at h
  rcases h2 : GetPass2Message pB (InitThreePassJpake false uidB pw cfg x3 x4) m1 v3 v4 v5
    with ⟨b1, r2⟩
  rw [h2] at h
  cases r2 with
  | error e => simp at h
  | ok m2 =>
  dsimp only at h
  rcases h3 : GetPass3Message pB a1 m2 v6 with ⟨a2v, r3⟩
  rw [h3] at h
  cases r3 with
  | error e => simp at h
  | ok m3 =>
  dsimp only at h
  rcases h4 : ProcessPass3Message pB b1 m3 with ⟨b2v, r4⟩
  rw [h4] at h
  cases r4 with
  | error e => simp at h
  | ok c1v =>
  dsimp only at h
  simp only [Option.some.injEq, Prod.mk.injEq] at h
  obtain ⟨ha2, hb2, hc1⟩ := h
  subst ha2
  subst hb2
  subst hc1
  obtain ⟨-, ha1, hm1⟩ := Pass1Message_ok h1
  subst ha1
  subst hm1
  obtain ⟨-, -, -, hb1, hm2⟩ := GetPass2Message_ok h2
  subst hb1
  subst hm2
  obtain ⟨-, -, -, ha2v, hm3⟩ := GetPass3Message_ok h3
  subst ha2v
  subst hm3
  obtain ⟨-, hb2v, hc1v⟩ := ProcessPass3Message_ok h4
  subst hb2v
  subst hc1v
  clear h1 h2 h3 h4
  unfold InitThreePassJpake
  dsimp only
  constructor
  · exact congrArg (fun z => Config.generateSessionKey cfg (pB z)) (by ring)
  · refine ⟨cfg.generateConfirmationMac
        (cfg.generateSessionKey
          (pB (x2 * (x4 * NewScalarFromSecret 1 (cfg.generateSecret pw) *
              (x3 * genPoint + x1 * genPoint + x2 * genPoint) -
            x2 * NewScalarFromSecret 1 (cfg.generateSecret pw) * (x4 * genPoint)))))
        (concat [kc1uBytes, uidA, uidB, pB (x1 * genPoint), pB (x2 * genPoint),
          pB (x3 * genPoint), pB (x4 * genPoint)]), ?_, ?_⟩
    · unfold ProcessSessionConfirmation1
      dsimp only
      split_ifs with hA hB
      · exact absurd rfl hA
      · exact absurd (congr_arg₂ (fun k m => Config.generateConfirmationMac cfg k m)
          (congrArg (fun z => Config.generateSessionKey cfg (pB z)) (by ring)) rfl) hB
      · rfl
    · unfold ProcessSessionConfirmation2
      dsimp only
      split_ifs with hA hB
      · exact absurd rfl hA
      · exact absurd (congr_arg₂ (fun k m => Config.generateConfirmationMac cfg k m)
          (congrArg (fun z => Config.generateSessionKey cfg (pB z)) (by ring)) rfl) hB
      · rfl

/-- Witness for the amended C1: the concrete run `runFix` completes, its two
session keys agree, and the first confirmation verifies. -/
theorem C1_honest_run_amended_witness :
    (runFix.map fun t => decide (t.1.SessionKey = t.2.1.SessionKey)) = some true ∧
      (runFix.map fun t =>
        resultOk (ProcessSessionConfirmation1 pB0 t.1 t.2.2).2) = some true := by
  cases hh : runFix with
  | none => exact absurd (congrArg Option.isSome hh) (by decide)
  | some t =>
    obtain ⟨a2, b2, c1⟩ := t
    obtain ⟨hSK, c2, hpc1, hpc2⟩ :=
      C1_honest_run_amended pB0 cfg0 [1] [2] [7] 1 2 3 4 2 5 7 9 11 13 a2 b2 c1 hh
    constructor
    · rw [Option.map_some']
      exact congrArg some (decide_eq_true hSK)
    · rw [Option.map_some', hpc1]
      rfl

/-! ## Claim C4: password binding -/

/-- `pB0` is injective, like the real compressed point encoding. -/
theorem pB0_injective : Function.Injective pB0 := by
  intro a b hab
  simp only [pB0, List.cons.injEq, and_true] at hab
  exact ZMod.val_injective Nord hab

/-- `macAppend` is injective in its key argument for every message. -/
theorem macAppend_key_injective :
    ∀ m : List ℕ, Function.Injective fun k => macAppend k m := by
  intro m a b hab
  simp only [macAppend] at hab
  exact List.append_left_injective m hab

/-- The honest run of the C4 counterexample: distinct passwords `[3]`/`[4]`
under the constant hash `cfg0`, whose derived secret scalars coincide. -/
def runC4 : Option (ThreePassJpake × ThreePassJpake × List ℕ) :=
  honestRun pB0 cfg0 [1] [2] [3] [4] 1 2 3 4 2 5 7 9 11 13

/-- **C4** is false as stated: counterexample.  Two sessions with distinct
userIDs and distinct passwords whose derived secret scalars collide: the run
completes, the two session keys are exactly equal, and the subsequent
`ProcessSessionConfirmation1` succeeds instead of returning the
confirmation-mismatch error. -/
theorem C4_password_binding_counterexample :
    ([3] : List ℕ) ≠ [4] ∧ ([1] : List ℕ) ≠ [2] ∧
      (runC4.map fun t => decide (t.1.SessionKey = t.2.1.SessionKey)) = some true ∧
      (runC4.map fun t =>
        resultOk (ProcessSessionConfirmation1 pB0 t.1 t.2.2).2) = some true := by
  decide

/-- **C4** (amended): whenever the honest run with distinct passwords
completes with no error, and the derived secret scalars and private scalars
are non-degenerate (`x2·x4·(s_B - s_A)·(x1+x2+x3+x4) ≢ 0 mod N`), then —
for an injective point encoding and a MAC that is injective in its key for
every fixed message — the two session keys differ and
`ProcessSessionConfirmation1` at the initiator returns the cannot-confirm
error, leaving the session unchanged. -/
theorem C4_password_binding_amended :
    ∀ (pB : Pt → List ℕ) (cfg : Config) (uidA uidB pwA pwB : List ℕ)
      (x1 x2 x3 x4 v1 v2 v3 v4 v5 v6 : ZMod Nord)
      (a2 b2 : ThreePassJpake) (c1 : List ℕ),
      honestRun pB cfg uidA uidB pwA pwB x1 x2 x3 x4 v1 v2 v3 v4 v5 v6 =
          some (a2, b2, c1) →
      x2 * x4 *
          (NewScalarFromSecret 1 (cfg.generateSecret pwB) -
            NewScalarFromSecret 1 (cfg.generateSecret pwA)) *
          (x1 + x2 + x3 + x4) ≠ 0 →
      Function.Injective pB →
      (∀ m : List ℕ, Function.Injective fun k => cfg.macFn k m) →
      a2.SessionKey ≠ b2.SessionKey ∧
        ProcessSessionConfirmation1 pB a2 c1 = (a2, .error .cannotConfirm) := by
  intro pB cfg uidA uidB pwA pwB x1 x2 x3 x4 v1 v2 v3 v4 v5 v6 a2 b2 c1 h hprod hpB hmac
  unfold honestRun at h
  dsimp only at h
  rcases h1 : Pass1Message pB (InitThreePassJpake true uidA pwA cfg x1 x2) v1 v2
    with ⟨a1, r1⟩
  rw [h1] at h
  cases r1 with
  | error e => simp at h
  | ok m1 =>
  dsimp only at h
  rcases h2 : GetPass2Message pB (InitThreePassJpake false uidB pwB cfg x3 x4) m1 v3 v4 v5
    with ⟨b1, r2⟩
  rw [h2] at h
  cases r2 with
  | error e => simp at h
  | ok m2 =>
  dsimp only at h
  rcases h3 : GetPass3Message pB a1 m2 v6 with ⟨a2v, r3⟩
  rw [h3] at h
  cases r3 with
  | error e => simp at h
  | ok m3 =>
  dsimp only at h
  rcases h4 : ProcessPass3Message pB b1 m3 with ⟨b2v, r4⟩
  rw [h4] at h
  cases r4 with
  | error e => simp at h
  | ok c1v =>
  dsimp only at h
  simp only [Option.some.injEq, Prod.mk.injEq] at h
  obtain ⟨ha2, hb2, hc1⟩ := h
  subst ha2
  subst hb2
  subst hc1
  obtain ⟨-, ha1, hm1⟩ := Pass1Message_ok h1
  subst ha1
  subst hm1
  obtain ⟨-, -, -, hb1, hm2⟩ := GetPass2Message_ok h2
  subst hb1
  subst hm2
  obtain ⟨-, -, -, ha2v, hm3⟩ := GetPass3Message_ok h3
  subst ha2v
  subst hm3
  obtain ⟨-, hb2v, hc1v⟩ := ProcessPass3Message_ok h4
  subst hb2v
  subst hc1v
  clear h1 h2 h3 h4
  unfold InitThreePassJpake
  dsimp only
  simp only [genPoint, mul_one]
  constructor
  · intro heq
    unfold Config.generateSessionKey at heq
    have h5 := hpB (hmac _ heq)
    exact hprod (by linear_combination h5)
  · unfold ProcessSessionConfirmation1
    dsimp only
    split_ifs with hA hB
    · exact absurd rfl hA
    · rfl
    · exfalso
      have heq2 := not_not.mp hB
      unfold Config.generateConfirmationMac at heq2
      have h3' := hmac _ (hmac _ heq2)
      unfold Config.generateSessionKey at h3'
      have h5 := hpB (hmac _ h3')
      exact hprod (by linear_combination -h5)

/-- The honest run of the C4 witness: distinct passwords under the identity
hash, whose derived secret scalars differ. -/
def runC4w : Option (ThreePassJpake × ThreePassJpake × List ℕ) :=
  honestRun pB0 cfgId [1] [2] [3] [4] 1 2 3 4 5 6 7 8 9 10

/-- Witness for the amended C4: a concrete completing run with genuinely
different secrets yields different session keys and a failing first
confirmation. -/
theorem C4_password_binding_amended_witness :
    (runC4w.map fun t => decide (t.1.SessionKey = t.2.1.SessionKey)) = some false ∧
      (runC4w.map fun t => errOf (ProcessSessionConfirmation1 pB0 t.1 t.2.2).2) =
        some (some .cannotConfirm) := by
  cases hh : runC4w with
  | none => exact absurd (congrArg Option.isSome hh) (by decide)
  | some t =>
    obtain ⟨a2, b2, c1⟩ := t
    have H := C4_password_binding_amended pB0 cfgId [1] [2] [3] [4] 1 2 3 4 5 6 7 8 9 10
      a2 b2 c1 hh (by decide) pB0_injective macAppend_key_injective
    constructor
    · rw [Option.map_some']
      exact congrArg some (decide_eq_false H.1)
    · rw [Option.map_some', H.2]
      rfl

end JpakeModel
